import Mathlib

/-!
# Verification of the RubyRokit design-service and template-export specification

Shallow embedding of the design aggregate and its operations, translated from
`backend/src/models/Design.ts`, `backend/src/services/design.service.ts`,
`backend/src/controllers/design.controller.ts`, `backend/src/services/file.service.ts`
and `backend/src/controllers/file.controller.ts`.

Modelling conventions:
* Mongo `ObjectId` values and entity ids are `String`s; freshly generated ids
  (`new mongoose.Types.ObjectId().toString()`) are passed in as parameters.
* `Date` instants are abstract `Nat` timestamps, passed in as a `now` parameter.
* The document store is external: each service operation is modelled as a function
  on the design value it reads, rather than on a store keyed by id.
* JavaScript `x || dflt` on strings is falsy on the empty string; `jsOrStr` models it.
  On the optional boolean `isPublic` the `|| false` collapses to `Option.getD false`,
  and on the optional array/object fields `||` collapses to `Option.getD` because
  arrays and objects (even empty ones) are truthy.
-/

namespace RubyRokit

/-- Version history entry: `{ version, timestamp, changes }` from `VersionHistorySchema`. -/
structure VersionEntry where
  version : Nat
  timestamp : Nat
  changes : String
deriving DecidableEq, Repr

/-- Section variant tag, from `SectionType` in `types/models.ts`. -/
inductive SectionType where
  | nosecone
  | payload_bay
  | main_body
deriving DecidableEq, Repr

/-- Boundary interval of a section, fractions of the total body length. -/
structure SectionBoundaries where
  start : ℚ
  end_ : ℚ
deriving DecidableEq, Repr

/-- Longitudinal body segment, from `ISection` in `models/Design.ts` (the
section-type-specific substructure is schema-free in the source and not
inspected by any service operation, so it is omitted here). -/
structure ISection where
  id : String
  type : SectionType
  name : String
  boundaries : SectionBoundaries
deriving DecidableEq, Repr

/-- Physical cut part, from `IComponent` in `models/Design.ts` (fields the
service operations never inspect — material, bezier controls, position,
symmetry — are omitted; the operations treat components opaquely). -/
structure IComponent where
  id : String
  type : String
  sectionId : String
  linkedComponents : List String
deriving DecidableEq, Repr

/-- Joint between two sections, from `ISectionConnection`. -/
structure ISectionConnection where
  id : String
  section1Id : String
  section2Id : String
  components : List String
deriving DecidableEq, Repr

/-- Fin planform record, from `IFinDesign` (only the reference fields). -/
structure IFinDesign where
  id : String
  componentId : String
  sectionId : String
deriving DecidableEq, Repr

/-- Global settings of a design, from `IGlobalSettings`. -/
structure GlobalSettings where
  defaultCuttingMethod : String
  defaultMaterial : String
  scale : ℚ
deriving DecidableEq, Repr

/-- The design aggregate root, from `IDesign` in `models/Design.ts` (derived
metric caches and template settings are opaque to every operation verified
here and are omitted). -/
structure IDesign where
  name : String
  createdBy : String
  createdAt : Nat
  updatedAt : Nat
  isPublic : Bool
  globalSettings : GlobalSettings
  sections : List ISection
  components : List IComponent
  sectionConnections : List ISectionConnection
  finDesigns : List IFinDesign
  version : Nat
  history : List VersionEntry
deriving DecidableEq, Repr

/-- A `Partial<IDesign>` patch: every field optional, absent fields mean
"leave the stored value". Mirrors the `updateData` / `designData` parameters. -/
structure DesignPatch where
  name : Option String := none
  createdBy : Option String := none
  createdAt : Option Nat := none
  isPublic : Option Bool := none
  globalSettings : Option GlobalSettings := none
  sections : Option (List ISection) := none
  components : Option (List IComponent) := none
  sectionConnections : Option (List ISectionConnection) := none
  finDesigns : Option (List IFinDesign) := none
  version : Option Nat := none
  history : Option (List VersionEntry) := none
deriving DecidableEq, Repr

/-- Errors thrown by the design service. -/
inductive DError where
  | accessDenied
deriving DecidableEq, Repr

/-- JavaScript `optionalString || dflt`: `undefined` and the empty string are falsy. -/
def jsOrStr : Option String → String → String
  | none, dflt => dflt
  | some s, dflt => if s = "" then dflt else s

/-- Default sections created by `DesignService.createDesign` when the caller
supplies none: nosecone `[0, 0.2]`, payload bay `[0.2, 0.5]`, main body
`[0.5, 1.0]`. The three generated `ObjectId` strings are parameters. -/
def defaultSections (ids : String × String × String) : List ISection :=
  [ { id := ids.1, type := .nosecone, name := "Nosecone",
      boundaries := { start := 0, end_ := 0.2 } },
    { id := ids.2.1, type := .payload_bay, name := "Payload Bay",
      boundaries := { start := 0.2, end_ := 0.5 } },
    { id := ids.2.2, type := .main_body, name := "Main Body",
      boundaries := { start := 0.5, end_ := 1.0 } } ]

/-- `DesignService.createDesign`: builds the design document with defaults for
every absent field, hardcodes `version: 1` and a single
`'Initial design creation'` history entry (note: `designData.version` and
`designData.history` are not read at all), and saves it. -/
def createDesign (now : Nat) (userId : String) (ids : String × String × String)
    (designData : DesignPatch) : IDesign :=
  { name := jsOrStr designData.name "Untitled Design"
    createdBy := userId
    createdAt := now
    updatedAt := now
    isPublic := designData.isPublic.getD false
    globalSettings := designData.globalSettings.getD
      { defaultCuttingMethod := "digital", defaultMaterial := "cardstock", scale := 1.0 }
    sections := designData.sections.getD (defaultSections ids)
    components := designData.components.getD []
    sectionConnections := designData.sectionConnections.getD []
    finDesigns := designData.finDesigns.getD []
    version := 1
    history := [{ version := 1, timestamp := now, changes := "Initial design creation" }] }

/-- `DesignService.getDesignById` applied to a design the store returned:
throws `'Access denied'` when a user id is supplied that is neither the owner
nor allowed by the public flag. (The not-found case is handled by the callers
before this check and is modelled at the controller layer.) -/
def getDesignById (userId : Option String) (design : IDesign) : Except DError IDesign :=
  match userId with
  | none => .ok design
  | some uid =>
    if design.createdBy ≠ uid ∧ design.isPublic = false then .error .accessDenied
    else .ok design

/-- The merged next state built by `DesignService.updateDesign`: the patch is
spread over the stored design after `delete updateData.createdBy/createdAt/
version/history`, `updatedAt` is refreshed, `version` is incremented and one
history entry is pushed. -/
def mergeUpdate (now : Nat) (design : IDesign) (updateData : DesignPatch)
    (changeDescription : String) : IDesign :=
  { name := updateData.name.getD design.name
    createdBy := design.createdBy
    createdAt := design.createdAt
    updatedAt := now
    isPublic := updateData.isPublic.getD design.isPublic
    globalSettings := updateData.globalSettings.getD design.globalSettings
    sections := updateData.sections.getD design.sections
    components := updateData.components.getD design.components
    sectionConnections := updateData.sectionConnections.getD design.sectionConnections
    finDesigns := updateData.finDesigns.getD design.finDesigns
    version := design.version + 1
    history := design.history ++
      [{ version := design.version + 1, timestamp := now, changes := changeDescription }] }

/-- `DesignService.updateDesign`: access check via `getDesignById`, ownership
check, then commit of the merged state. `changeDescription` defaults to
`'Design update'` when the caller supplies none. -/
def updateDesign (now : Nat) (userId : String) (design : IDesign)
    (updateData : DesignPatch) (changeDescription : Option String) : Except DError IDesign :=
  match getDesignById (some userId) design with
  | .error e => .error e
  | .ok d =>
    if d.createdBy ≠ userId then .error .accessDenied
    else .ok (mergeUpdate now d updateData (changeDescription.getD "Design update"))

/-- All fields of a design wrapped into a fully-populated patch; models
passing the cloned `designObject` into `createDesign` as `designData`. -/
def patchOfDesign (d : IDesign) : DesignPatch :=
  { name := some d.name
    createdBy := some d.createdBy
    createdAt := some d.createdAt
    isPublic := some d.isPublic
    globalSettings := some d.globalSettings
    sections := some d.sections
    components := some d.components
    sectionConnections := some d.sectionConnections
    finDesigns := some d.finDesigns
    version := some d.version
    history := some d.history }

/-- `DesignService.cloneDesign`: visibility check via `getDesignById` (no
separate ownership check — public designs may be cloned by any reader), then
a copy with new name/owner/dates, `isPublic := false`, `version := 1` and a
single provenance history entry, handed to `createDesign` for persistence. -/
def cloneDesign (now : Nat) (userId : String) (ids : String × String × String)
    (designId : String) (newName : Option String) (design : IDesign) :
    Except DError IDesign :=
  match getDesignById (some userId) design with
  | .error e => .error e
  | .ok d =>
    let designObject : IDesign :=
      { d with
        name := jsOrStr newName ("Copy of " ++ d.name)
        createdBy := userId
        createdAt := now
        updatedAt := now
        isPublic := false
        version := 1
        history := [{ version := 1, timestamp := now,
                      changes := "Cloned from design " ++ designId }] }
    .ok (createDesign now userId ids (patchOfDesign designObject))

/-- History message written by `togglePublicStatus`. -/
def toggleMsg (newStatus : Bool) : String :=
  if newStatus then "Made design public" else "Made design private"

/-- The next state built by `DesignService.togglePublicStatus`: flips the flag
and pushes a history entry that re-uses the *current* version number; the
version counter itself is not touched. -/
def toggleResult (now : Nat) (design : IDesign) : IDesign :=
  { design with
    isPublic := !design.isPublic
    updatedAt := now
    history := design.history ++
      [{ version := design.version, timestamp := now,
         changes := toggleMsg (!design.isPublic) }] }

/-- `DesignService.togglePublicStatus`: access and ownership checks, then the
flag flip with its version-re-using history entry. -/
def togglePublicStatus (now : Nat) (userId : String) (design : IDesign) :
    Except DError IDesign :=
  match getDesignById (some userId) design with
  | .error e => .error e
  | .ok d =>
    if d.createdBy ≠ userId then .error .accessDenied
    else .ok (toggleResult now d)

/-! ## Template export pipeline (`file.service.ts`, `file.controller.ts`) -/

/-- The fixed placeholder SVG produced by `FileService.generateSvgTemplate`:
a hard-coded rocket outline whose only design-dependent part is the design
name interpolated into the `<title>`. CSS braces are written with their
escape codes. -/
def svgTemplateFor (name : String) : String :=
  "<?xml version=\"1.0\" encoding=\"UTF-8\" standalone=\"no\"?>\n" ++
  "<svg width=\"800\" height=\"600\" xmlns=\"http://www.w3.org/2000/svg\">\n" ++
  "  <title>" ++ name ++ " - Template</title>\n" ++
  "  <defs>\n    <style>\n" ++
  "      .section-nosecone \x7b fill: #f9d5e5; stroke: #000; stroke-width: 1; \x7d\n" ++
  "      .section-payload \x7b fill: #eeeeee; stroke: #000; stroke-width: 1; \x7d\n" ++
  "      .section-main \x7b fill: #d5f9e5; stroke: #000; stroke-width: 1; \x7d\n" ++
  "      .fin \x7b fill: #e5d5f9; stroke: #000; stroke-width: 1; \x7d\n" ++
  "      .text \x7b font-family: Arial; font-size: 12px; \x7d\n" ++
  "    </style>\n  </defs>\n  <g id=\"rocket\">\n" ++
  "    <path d=\"M 400,100 L 350,200 L 450,200 Z\" class=\"section-nosecone\" />\n" ++
  "    <rect x=\"350\" y=\"200\" width=\"100\" height=\"100\" class=\"section-payload\" />\n" ++
  "    <rect x=\"350\" y=\"300\" width=\"100\" height=\"200\" class=\"section-main\" />\n" ++
  "    <path d=\"M 350,450 L 300,500 L 350,500 Z\" class=\"fin\" />\n" ++
  "    <path d=\"M 450,450 L 500,500 L 450,500 Z\" class=\"fin\" />\n" ++
  "    <text x=\"400\" y=\"150\" text-anchor=\"middle\" class=\"text\">Nosecone</text>\n" ++
  "    <text x=\"400\" y=\"250\" text-anchor=\"middle\" class=\"text\">Payload Bay</text>\n" ++
  "    <text x=\"400\" y=\"400\" text-anchor=\"middle\" class=\"text\">Main Body</text>\n" ++
  "  </g>\n</svg>"

/-- `FileService.generateSvgTemplate`: the body is a template literal that
reads only `design.name`; it cannot fail, so it is modelled as a total
function. Sections, components and every other part of the design are not
consulted (the source marks this as a placeholder to be expanded later). -/
def generateSvgTemplate (design : IDesign) : String :=
  svgTemplateFor design.name

/-- `FileService.generatePdfTemplate`: mock PDF wrapping of the SVG payload
(bytes modelled as strings). -/
def generatePdfTemplate (svgContent : String) : String :=
  "%PDF-1.7\n1 0 obj\n<< /Type /Catalog /Pages 2 0 R >>\nendobj\n" ++ svgContent ++
  "\nendobj\n%%EOF"

/-- `FileService.generateSilhouetteStudioFile`: magic header plus SVG payload. -/
def generateSilhouetteStudioFile (svgContent : String) : String :=
  "SILHOUETTE-STUDIO-FILE\n" ++ svgContent

/-- `FileService.generateCricutFile`: magic header plus SVG payload. -/
def generateCricutFile (svgContent : String) : String :=
  "CRICUT-DESIGN-SPACE-FILE\n" ++ svgContent

/-- Result of `FileController.generateTemplate`, one constructor per HTTP
response the controller can produce. `invalidFormat` is the express-validator
400 (`'Invalid format'`) raised before the design is fetched;
`unsupportedFormat` is the `switch` default 400 (`'Unsupported format'`). -/
inductive TemplateResult where
  | invalidFormat
  | notFound
  | accessDenied
  | svgOut (content : String)
  | pdfOut (content : String)
  | silhouetteOut (content : String)
  | cricutOut (content : String)
  | unsupportedFormat
deriving DecidableEq, Repr

/-- The formats accepted by `generateTemplateValidation`:
`query('format').optional().isIn(['svg', 'pdf', 'silhouette', 'cricut'])`. -/
def supportedFormats : List String := ["svg", "pdf", "silhouette", "cricut"]

/-- JavaScript `String.prototype.toLowerCase()` for ASCII format names,
written over the character list so that it evaluates by reduction. -/
def jsToLowerCase (s : String) : String := String.mk (s.data.map Char.toLower)

/-- The express-validator check `query('format').optional().isIn(...)`: a
supplied format outside the supported list is rejected; an absent format is
allowed (it defaults to `svg` later). -/
def formatQueryInvalid : Option String → Bool
  | some f => decide (f ∉ supportedFormats)
  | none => false

/-- `FileController.generateTemplate`: express-validator format check first
(absent format is allowed), then store lookup (`null` means 404), then the
service access check, then SVG generation followed by the per-format
encoding switch. -/
def generateTemplate (formatQuery : Option String) (userId : String)
    (designLookup : Option IDesign) : TemplateResult :=
  if formatQueryInvalid formatQuery then
    .invalidFormat
  else
    let format := jsToLowerCase (jsOrStr formatQuery "svg")
    match designLookup with
    | none => .notFound
    | some design =>
      match getDesignById (some userId) design with
      | .error _ => .accessDenied
      | .ok d =>
        let svgContent := generateSvgTemplate d
        if format = "svg" then .svgOut svgContent
        else if format = "pdf" then .pdfOut (generatePdfTemplate svgContent)
        else if format = "silhouette" then
          .silhouetteOut (generateSilhouetteStudioFile svgContent)
        else if format = "cricut" then .cricutOut (generateCricutFile svgContent)
        else .unsupportedFormat

/-- Errors thrown by the file service persistence path. `uploadFailed` is
`'Failed to upload file to S3'`; `saveFailed` is
`'Failed to generate and save template'`. -/
inductive FileError where
  | uploadFailed
  | saveFailed
deriving DecidableEq, Repr

/-- Environment of the S3 collaborator: whether a client and bucket are
configured (`s3 && config.aws.s3Bucket`), and the outcome the network would
produce for an attempted upload (`data.Location` on success). -/
structure S3Env where
  configured : Bool
  uploadResult : Except Unit String
deriving Repr

/-- `FileService.uploadFileToS3`: returns `null` (here `none`) without
uploading when S3 is not configured; otherwise performs the upload and
returns its URL, converting any upload rejection into a thrown
`'Failed to upload file to S3'`. Temp-file reads/unlinks are filesystem
effects outside this model. -/
def uploadFileToS3 (env : S3Env) : Except FileError (Option String) :=
  if !env.configured then .ok none
  else
    match env.uploadResult with
    | .ok url => .ok (some url)
    | .error _ => .error .uploadFailed

/-- `FileService.generateAndSaveTemplate`: generates the SVG, writes it to
`tempFilePath`, and — when S3 is configured — uploads it, rethrowing any
upload error as `'Failed to generate and save template'`; the
`s3Url || tempFilePath` fallback and the unconfigured branch return the local
path. (The duplicate `unlink` of the temp file on the success path is a
filesystem effect outside this model; see the C9 analysis.) -/
def generateAndSaveTemplate (env : S3Env) (tempFilePath : String)
    (design : IDesign) : Except FileError String :=
  let _svgContent := generateSvgTemplate design
  if env.configured then
    match uploadFileToS3 env with
    | .error _ => .error .saveFailed
    | .ok s3Url => .ok (s3Url.getD tempFilePath)
  else .ok tempFilePath

/-! ## Characterization lemmas for the service operations -/

/-- Characterization of `updateDesign`: accepted exactly for the owner, and
then the committed state is the merged draft. -/
theorem updateDesign_spec (now : Nat) (uid : String) (d : IDesign) (p : DesignPatch)
    (desc : Option String) :
    updateDesign now uid d p desc =
      if d.createdBy = uid then
        Except.ok (mergeUpdate now d p (desc.getD "Design update"))
      else Except.error DError.accessDenied := by
  unfold updateDesign getDesignById
  by_cases h : d.createdBy = uid
  · simp [h]
  · by_cases hp : d.isPublic <;> simp [h, hp]

/-- Characterization of `togglePublicStatus`: accepted exactly for the owner. -/
theorem togglePublicStatus_spec (now : Nat) (uid : String) (d : IDesign) :
    togglePublicStatus now uid d =
      if d.createdBy = uid then Except.ok (toggleResult now d)
      else Except.error DError.accessDenied := by
  unfold togglePublicStatus getDesignById
  by_cases h : d.createdBy = uid
  · simp [h]
  · by_cases hp : d.isPublic <;> simp [h, hp]

/-- Characterization of `cloneDesign`: accepted for any reader (owner or
public design), and the persisted clone is `createDesign` applied to the
fully-populated patch of the adjusted copy. -/
theorem cloneDesign_spec (now : Nat) (uid : String) (ids : String × String × String)
    (did : String) (nn : Option String) (d : IDesign) :
    cloneDesign now uid ids did nn d =
      if d.createdBy = uid ∨ d.isPublic then
        Except.ok (createDesign now uid ids (patchOfDesign
          { d with
            name := jsOrStr nn ("Copy of " ++ d.name)
            createdBy := uid
            createdAt := now
            updatedAt := now
            isPublic := false
            version := 1
            history := [{ version := 1, timestamp := now,
                          changes := "Cloned from design " ++ did }] }))
      else Except.error DError.accessDenied := by
  unfold cloneDesign getDesignById
  by_cases h : d.createdBy = uid
  · simp [h]
  · by_cases hp : d.isPublic <;> simp [h, hp]

/-! ## History-chain invariant machinery (for the C6 claim) -/

/-- Walks a history suffix starting from version `v`, requiring every entry to
either repeat the previous version (a visibility toggle) or increment it by
one (an update); returns the final version when the walk is legal. -/
def chainEnd : Nat → List VersionEntry → Option Nat
  | v, [] => some v
  | v, e :: rest =>
    if e.version = v ∨ e.version = v + 1 then chainEnd e.version rest else none

/-- History invariant of a design: the log is non-empty, starts at version 1,
every later entry repeats or increments the previous entry's version (so the
sequence is non-decreasing and gap-free), and the final entry carries the
design's current version counter. -/
def invOk (d : IDesign) : Bool :=
  match d.history with
  | [] => false
  | e :: rest => decide (e.version = 1 ∧ chainEnd e.version rest = some d.version)

theorem chainEnd_append (v : Nat) (l : List VersionEntry) (e : VersionEntry) :
    chainEnd v (l ++ [e]) =
      match chainEnd v l with
      | none => none
      | some w => if e.version = w ∨ e.version = w + 1 then some e.version else none := by
  induction l generalizing v with
  | nil => simp [chainEnd]
  | cons a rest ih =>
    simp only [List.cons_append, chainEnd]
    by_cases h : a.version = v ∨ a.version = v + 1
    · simp only [if_pos h]
      exact ih a.version
    · simp only [if_neg h]

theorem invOk_createDesign (now : Nat) (uid : String) (ids : String × String × String)
    (data : DesignPatch) : invOk (createDesign now uid ids data) = true := by
  simp [invOk, createDesign, chainEnd]

theorem invOk_mergeUpdate (now : Nat) (d : IDesign) (p : DesignPatch) (s : String)
    (h : invOk d = true) : invOk (mergeUpdate now d p s) = true := by
  unfold invOk at h ⊢
  cases hh : d.history with
  | nil => rw [hh] at h; simp at h
  | cons e rest =>
    rw [hh] at h
    simp only [decide_eq_true_eq] at h
    obtain ⟨h1, h2⟩ := h
    simp only [mergeUpdate, hh, List.cons_append, decide_eq_true_eq]
    refine ⟨h1, ?_⟩
    rw [chainEnd_append, h2]
    simp

theorem invOk_toggleResult (now : Nat) (d : IDesign)
    (h : invOk d = true) : invOk (toggleResult now d) = true := by
  unfold invOk at h ⊢
  cases hh : d.history with
  | nil => rw [hh] at h; simp at h
  | cons e rest =>
    rw [hh] at h
    simp only [decide_eq_true_eq] at h
    obtain ⟨h1, h2⟩ := h
    simp only [toggleResult, hh, List.cons_append, decide_eq_true_eq]
    refine ⟨h1, ?_⟩
    rw [chainEnd_append, h2]
    simp

/-- One accepted mutation of a stored design: an `update` or a visibility
toggle. (`clone` and `create` start new designs rather than stepping an
existing one; every clone result is a `createDesign` result, see
`cloneDesign_spec`.) -/
inductive StepD : IDesign → IDesign → Prop where
  | update (now : Nat) (uid : String) (patch : DesignPatch) (desc : Option String)
      (d d' : IDesign) : updateDesign now uid d patch desc = Except.ok d' → StepD d d'
  | toggle (now : Nat) (uid : String) (d d' : IDesign) :
      togglePublicStatus now uid d = Except.ok d' → StepD d d'

/-- A design reachable by creating (or cloning, which persists through
`createDesign`) and then applying any sequence of accepted mutations. -/
def ReachableDesign (d : IDesign) : Prop :=
  ∃ (now : Nat) (uid : String) (ids : String × String × String) (data : DesignPatch),
    Relation.ReflTransGen StepD (createDesign now uid ids data) d

theorem StepD.invOk_preserved {d d' : IDesign} (h : StepD d d')
    (hd : invOk d = true) : invOk d' = true := by
  cases h with
  | update now uid patch desc d d' heq =>
    rw [updateDesign_spec] at heq
    split at heq
    · cases heq
      exact invOk_mergeUpdate _ _ _ _ hd
    · cases heq
  | toggle now uid d d' heq =>
    rw [togglePublicStatus_spec] at heq
    split at heq
    · cases heq
      exact invOk_toggleResult _ _ hd
    · cases heq

theorem StepD.history_extends {d d' : IDesign} (h : StepD d d') :
    d.history = d'.history.take d.history.length := by
  cases h with
  | update now uid patch desc d d' heq =>
    rw [updateDesign_spec] at heq
    split at heq
    · cases heq
      simp [mergeUpdate]
    · cases heq
  | toggle now uid d d' heq =>
    rw [togglePublicStatus_spec] at heq
    split at heq
    · cases heq
      simp [toggleResult]
    · cases heq

theorem ReachableDesign.invariant {d : IDesign} (h : ReachableDesign d) :
    invOk d = true := by
  obtain ⟨now, uid, ids, data, hchain⟩ := h
  induction hchain with
  | refl => exact invOk_createDesign now uid ids data
  | tail _ hstep ih => exact hstep.invOk_preserved ih

/-! ## Iterated updates (for the C2 claim) -/

/-- One call of the update endpoint: the request instant, the patch body and
the optional change description. -/
structure UpdateOp where
  now : Nat
  patch : DesignPatch
  desc : Option String

/-- A sequence of `updateDesign` calls by `uid`, stopping at the first
rejection (the whole sequence is accepted iff the result is `ok`). -/
def applyUpdates (uid : String) : IDesign → List UpdateOp → Except DError IDesign
  | d, [] => .ok d
  | d, op :: rest =>
    match updateDesign op.now uid d op.patch op.desc with
    | .error e => .error e
    | .ok d' => applyUpdates uid d' rest

/-- The history entries a sequence of accepted updates appends, starting from
version `v`: one entry per update, versions `v+1, v+2, ...`, each carrying the
supplied description or the `'Design update'` default. -/
def expectedEntries : Nat → List UpdateOp → List VersionEntry
  | _, [] => []
  | v, op :: rest =>
    { version := v + 1, timestamp := op.now, changes := op.desc.getD "Design update" } ::
      expectedEntries (v + 1) rest

theorem expectedEntries_length (v : Nat) (ops : List UpdateOp) :
    (expectedEntries v ops).length = ops.length := by
  induction ops generalizing v with
  | nil => rfl
  | cons op rest ih => simp [expectedEntries, ih]

theorem applyUpdates_ok (uid : String) (ops : List UpdateOp) (d0 d : IDesign)
    (h : applyUpdates uid d0 ops = Except.ok d) :
    d.version = d0.version + ops.length ∧
    d.history = d0.history ++ expectedEntries d0.version ops := by
  induction ops generalizing d0 with
  | nil =>
    simp only [applyUpdates] at h
    cases h
    simp [expectedEntries]
  | cons op rest ih =>
    simp only [applyUpdates] at h
    rw [updateDesign_spec] at h
    by_cases hc : d0.createdBy = uid
    · rw [if_pos hc] at h
      simp only [] at h
      obtain ⟨h1, h2⟩ := ih (mergeUpdate op.now d0 op.patch (op.desc.getD "Design update")) h
      constructor
      · rw [h1]
        simp [mergeUpdate]
        omega
      · rw [h2]
        simp [mergeUpdate, expectedEntries, List.append_assoc]
    · rw [if_neg hc] at h
      simp at h

/-! ## Claim-level predicates and sample inputs -/

/-- Patch fields the engine controls, removed by `updateDesign` before the
merge (`delete updateData.createdBy` and so on). -/
def stripControlled (p : DesignPatch) : DesignPatch :=
  { p with createdBy := none, createdAt := none, version := none, history := none }

/-- End boundary of the last section of a list (0 for the empty list). -/
def lastEnd : List ISection → ℚ
  | [] => 0
  | [s] => s.boundaries.end_
  | _ :: rest => lastEnd rest

/-- Consecutive sections abut: each section's `end` equals the next one's
`start`. -/
def abutting : List ISection → Bool
  | [] => true
  | [_] => true
  | s1 :: s2 :: rest =>
    decide (s1.boundaries.end_ = s2.boundaries.start) && abutting (s2 :: rest)

/-- The boundary-tiling property claimed of a section list: non-empty, starts
at 0, consecutive sections abut with no gap or overlap, ends at 1, and every
boundary stays inside `[0, 1]` with `start ≤ end`. -/
def tilesUnit (l : List ISection) : Bool :=
  match l with
  | [] => false
  | s :: rest =>
    decide (s.boundaries.start = 0) && abutting (s :: rest) &&
    decide (lastEnd (s :: rest) = 1) &&
    (s :: rest).all (fun t =>
      decide (0 ≤ t.boundaries.start) && decide (t.boundaries.start ≤ t.boundaries.end_) &&
      decide (t.boundaries.end_ ≤ 1))

/-- Three fresh section ids for sample designs. -/
def sampleIds : String × String × String := ("sec-a", "sec-b", "sec-c")

/-- The design a bare `createDesign` call by user `alice` produces: default
name, default sections, no components, version 1, private. -/
def baseDesign : IDesign := createDesign 0 "alice" sampleIds {}

/-- Sections with a boundary gap between 0.3 and 0.4, the shape of the
spec's own rejection example. -/
def gapSections : List ISection :=
  [ { id := "s1", type := .nosecone, name := "Nose",
      boundaries := { start := 0, end_ := 0.3 } },
    { id := "s2", type := .main_body, name := "Body",
      boundaries := { start := 0.4, end_ := 1 } } ]

/-- A component whose `sectionId` resolves to no section of `gapSections`. -/
def danglingComponent : IComponent :=
  { id := "c1", type := "fin", sectionId := "missing-section", linkedComponents := [] }

/-- A patch submitting both violations at once: gapped sections and a
dangling component reference. -/
def gapPatch : DesignPatch :=
  { sections := some gapSections, components := some [danglingComponent] }

/-! ## Claims -/

/-- C1, counterexample. The claim says a Design whose sections have a boundary
gap (`[0, 0.3]`, `[0.4, 1]`) or a component with a dangling `sectionId` is
rejected on update with a validation-error list and the stored design left
unchanged. In the code `updateDesign` performs no structural validation at
all: submitting exactly such a design as an update is accepted, the version
is incremented to 2 and the gapped sections and dangling component are
committed as the stored state. -/
theorem c1_gap_design_update_accepted :
    (updateDesign 1 "alice" baseDesign gapPatch none).map
        (fun d => (d.version, d.sections, d.components)) =
      Except.ok (2, gapSections, [danglingComponent]) := by
  rfl

/-- C1, amended. `updateDesign` accepts every patch submitted by the owner,
with no boundary-tiling or referential-integrity check: the committed state
is the merged draft, whose sections and components are exactly the patch's
values whenever the patch supplies them, regardless of gaps or dangling
references. -/
theorem c1_update_accepts_any_owner_patch (now : Nat) (uid : String) (d : IDesign)
    (p : DesignPatch) (desc : Option String) (h : d.createdBy = uid) :
    updateDesign now uid d p desc =
      Except.ok (mergeUpdate now d p (desc.getD "Design update")) ∧
    (mergeUpdate now d p (desc.getD "Design update")).sections = p.sections.getD d.sections ∧
    (mergeUpdate now d p (desc.getD "Design update")).components =
      p.components.getD d.components := by
  rw [updateDesign_spec, if_pos h]
  exact ⟨rfl, rfl, rfl⟩

/-- Witness for the amended C1 theorem at a concrete gapped patch. -/
theorem c1_update_accepts_any_owner_patch_witness :
    updateDesign 1 "alice" baseDesign gapPatch none =
      Except.ok (mergeUpdate 1 baseDesign gapPatch "Design update") ∧
    (mergeUpdate 1 baseDesign gapPatch "Design update").sections =
      gapPatch.sections.getD baseDesign.sections ∧
    (mergeUpdate 1 baseDesign gapPatch "Design update").components =
      gapPatch.components.getD baseDesign.components :=
  c1_update_accepts_any_owner_patch 1 "alice" baseDesign gapPatch none rfl

/-- C2. A design created at version 1 with a single history entry has, after
`n` accepted updates, version `1 + n` and exactly `n + 1` history entries;
the appended entries are precisely one per update, with contiguous version
numbers and the supplied change description (default `'Design update'`). -/
theorem c2_version_and_history_after_updates (uid : String) (d0 d : IDesign)
    (ops : List UpdateOp) (hv : d0.version = 1) (hh : d0.history.length = 1)
    (h : applyUpdates uid d0 ops = Except.ok d) :
    d.version = 1 + ops.length ∧ d.history.length = ops.length + 1 ∧
    d.history = d0.history ++ expectedEntries 1 ops := by
  obtain ⟨h1, h2⟩ := applyUpdates_ok uid ops d0 d h
  rw [hv] at h1 h2
  refine ⟨by omega, ?_, h2⟩
  rw [h2]
  simp [expectedEntries_length, hh]
  omega

/-- The patch and result of one concrete accepted update on `baseDesign`. -/
def c2op : UpdateOp := { now := 1, patch := { name := some "Mk II" }, desc := some "rename" }

/-- Witness for C2: one accepted update on the freshly created design. -/
theorem c2_version_and_history_after_updates_witness :
    (mergeUpdate 1 baseDesign { name := some "Mk II" } "rename").version = 1 + [c2op].length ∧
    (mergeUpdate 1 baseDesign { name := some "Mk II" } "rename").history.length =
      [c2op].length + 1 ∧
    (mergeUpdate 1 baseDesign { name := some "Mk II" } "rename").history =
      baseDesign.history ++ expectedEntries 1 [c2op] :=
  c2_version_and_history_after_updates "alice" baseDesign
    (mergeUpdate 1 baseDesign { name := some "Mk II" } "rename") [c2op] rfl rfl rfl

/-- C3, code bug. The claim (and `cloneDesign`'s own code, which builds a
`'Cloned from design <id>'` entry) wants the clone's single history entry to
record provenance; but `createDesign`, through which the clone is persisted,
hardcodes `history` to the `'Initial design creation'` entry, discarding the
provenance entry. Everything else the claim states holds on this input:
version 1, private, owner reassigned, sections/components copied verbatim. -/
theorem c3_clone_history_entry_is_initial_creation :
    (cloneDesign 1 "alice" ("sec-d", "sec-e", "sec-f") "src-design-1" none baseDesign).map
        (fun c => (c.version, c.isPublic, c.history, c.sections, c.components, c.createdBy)) =
      Except.ok (1, false,
        [{ version := 1, timestamp := 1, changes := "Initial design creation" }],
        baseDesign.sections, baseDesign.components, "alice") := by
  rfl

/-- C4. Toggling the public flag twice restores it; neither toggle changes the
version counter, and each toggle's appended history entry re-uses the current
version number. -/
theorem c4_toggle_involution_version_fixed (now1 now2 : Nat) (uid : String)
    (d d1 d2 : IDesign)
    (h1 : togglePublicStatus now1 uid d = Except.ok d1)
    (h2 : togglePublicStatus now2 uid d1 = Except.ok d2) :
    d2.isPublic = d.isPublic ∧ d1.version = d.version ∧ d2.version = d.version ∧
    d1.history = d.history ++
      [{ version := d.version, timestamp := now1, changes := toggleMsg (!d.isPublic) }] ∧
    d2.history = d1.history ++
      [{ version := d1.version, timestamp := now2, changes := toggleMsg (!d1.isPublic) }] := by
  rw [togglePublicStatus_spec] at h1
  split at h1
  · cases h1
    rw [togglePublicStatus_spec] at h2
    split at h2
    · cases h2
      refine ⟨?_, rfl, rfl, rfl, rfl⟩
      simp [toggleResult]
    · cases h2
  · cases h1

/-- Witness for C4: two toggles of the sample design by its owner. -/
theorem c4_toggle_involution_version_fixed_witness :
    (toggleResult 2 (toggleResult 1 baseDesign)).isPublic = baseDesign.isPublic ∧
    (toggleResult 1 baseDesign).version = baseDesign.version ∧
    (toggleResult 2 (toggleResult 1 baseDesign)).version = baseDesign.version ∧
    (toggleResult 1 baseDesign).history = baseDesign.history ++
      [{ version := baseDesign.version, timestamp := 1,
         changes := toggleMsg (!baseDesign.isPublic) }] ∧
    (toggleResult 2 (toggleResult 1 baseDesign)).history =
      (toggleResult 1 baseDesign).history ++
      [{ version := (toggleResult 1 baseDesign).version, timestamp := 2,
         changes := toggleMsg (!(toggleResult 1 baseDesign).isPublic) }] :=
  c4_toggle_involution_version_fixed 1 2 "alice" baseDesign
    (toggleResult 1 baseDesign) (toggleResult 2 (toggleResult 1 baseDesign)) rfl rfl

/-- A patch that tries to overwrite every engine-controlled field. -/
def sneakyPatch : DesignPatch :=
  { name := some "Hacked",
    createdBy := some "mallory",
    createdAt := some 99,
    version := some 42,
    history := some [] }

/-- C5. Caller-supplied `createdBy`, `createdAt`, `version` and `history`
values in an update patch are silently ignored: the accepted result keeps the
stored owner and creation date, gets the engine-incremented version and the
engine-appended history entry, and the call's outcome is identical to the
same call with those patch fields absent (so their presence never causes a
failure). -/
theorem c5_engine_controlled_fields_ignored (now : Nat) (uid : String) (d : IDesign)
    (p : DesignPatch) (desc : Option String) (d' : IDesign)
    (h : updateDesign now uid d p desc = Except.ok d') :
    d'.createdBy = d.createdBy ∧ d'.createdAt = d.createdAt ∧
    d'.version = d.version + 1 ∧
    d'.history = d.history ++ [{ version := d.version + 1, timestamp := now,
                                 changes := desc.getD "Design update" }] ∧
    updateDesign now uid d p desc = updateDesign now uid d (stripControlled p) desc := by
  rw [updateDesign_spec] at h
  split at h
  case isTrue hc =>
    cases h
    refine ⟨rfl, rfl, rfl, rfl, ?_⟩
    rw [updateDesign_spec, updateDesign_spec, if_pos hc, if_pos hc]
    rfl
  case isFalse => cases h

/-- Witness for C5 at a patch supplying every engine-controlled field. -/
theorem c5_engine_controlled_fields_ignored_witness :
    (mergeUpdate 3 baseDesign sneakyPatch "Design update").createdBy = baseDesign.createdBy ∧
    (mergeUpdate 3 baseDesign sneakyPatch "Design update").createdAt = baseDesign.createdAt ∧
    (mergeUpdate 3 baseDesign sneakyPatch "Design update").version = baseDesign.version + 1 ∧
    (mergeUpdate 3 baseDesign sneakyPatch "Design update").history = baseDesign.history ++
      [{ version := baseDesign.version + 1, timestamp := 3,
         changes := (none : Option String).getD "Design update" }] ∧
    updateDesign 3 "alice" baseDesign sneakyPatch none =
      updateDesign 3 "alice" baseDesign (stripControlled sneakyPatch) none :=
  c5_engine_controlled_fields_ignored 3 "alice" baseDesign sneakyPatch none
    (mergeUpdate 3 baseDesign sneakyPatch "Design update") rfl

/-- The sample design after one accepted visibility toggle. -/
def c6toggled : IDesign := toggleResult 1 baseDesign

/-- C6, counterexample. The claim requires the history version numbers of
every reachable design to be strictly increasing and contiguous from 1; but
a freshly created design (history versions `[1]`) followed by one accepted
`togglePublicStatus` — which re-uses the current version — is reachable and
has history versions `[1, 1]`, which is neither strictly increasing nor
contiguous. -/
theorem c6_toggle_repeats_version_counterexample :
    ReachableDesign c6toggled ∧
    c6toggled.history.map (fun e => e.version) = [1, 1] ∧
    ¬ List.Chain' (· < ·) (c6toggled.history.map (fun e => e.version)) := by
  have hmap : c6toggled.history.map (fun e => e.version) = [1, 1] := rfl
  refine ⟨⟨0, "alice", sampleIds, {}, ?_⟩, hmap, ?_⟩
  · exact Relation.ReflTransGen.single
      (StepD.toggle 1 "alice" baseDesign c6toggled (by rfl))
  · rw [hmap]
    simp [List.chain'_cons]

/-- C6, amended. For every reachable design and every accepted mutation on
it: the history stays non-empty, starts at version 1, each entry either
repeats the previous entry's version (a toggle) or increments it by exactly
one (an update) — so the version numbers are non-decreasing and gap-free —
the final entry carries the design's current version, and the mutation only
appends: the previous history survives unchanged as the front of the new
one. -/
theorem c6_history_nondecreasing_append_only (d d' : IDesign)
    (hr : ReachableDesign d) (hs : StepD d d') :
    invOk d' = true ∧ d.history = d'.history.take d.history.length :=
  ⟨hs.invOk_preserved hr.invariant, hs.history_extends⟩

/-- Witness for the amended C6 theorem: a create followed by one toggle. -/
theorem c6_history_nondecreasing_append_only_witness :
    invOk c6toggled = true ∧
    baseDesign.history = c6toggled.history.take baseDesign.history.length :=
  c6_history_nondecreasing_append_only baseDesign c6toggled
    ⟨0, "alice", sampleIds, {}, Relation.ReflTransGen.refl⟩
    (StepD.toggle 1 "alice" baseDesign c6toggled (by rfl))

/-- C7. A supplied export format outside the supported list is rejected by
the controller's validation step as `'Invalid format'` before the design is
even fetched, for every design argument alike — so no SVG vector document is
generated and no encoder runs for an unsupported format. -/
theorem c7_unknown_format_rejected_before_vectorization (f : String) (uid : String)
    (designLookup : Option IDesign) (h : f ∉ supportedFormats) :
    generateTemplate (some f) uid designLookup = TemplateResult.invalidFormat := by
  unfold generateTemplate
  have hf : formatQueryInvalid (some f) = true := by
    simp [formatQueryInvalid, h]
  rw [hf]
  rfl

/-- Witness for C7 at the unsupported format `png`. -/
theorem c7_unknown_format_rejected_before_vectorization_witness :
    generateTemplate (some "png") "alice" (some baseDesign) =
      TemplateResult.invalidFormat :=
  c7_unknown_format_rejected_before_vectorization "png" "alice" (some baseDesign)
    (by decide)

/-- Helper: for a design readable by its owner, requesting the `svg` format
always yields the placeholder SVG built from the design's name alone. -/
theorem generateTemplate_svg_ok (uid : String) (d : IDesign) (h : d.createdBy = uid) :
    generateTemplate (some "svg") uid (some d) =
      TemplateResult.svgOut (svgTemplateFor d.name) := by
  unfold generateTemplate
  have hg : getDesignById (some uid) d = Except.ok d := by
    simp only [getDesignById]
    rw [if_neg]
    rintro ⟨hc, -⟩
    exact hc h
  simp only [hg]
  rfl

/-- C8, counterexample. The claim says requesting a template for a design
with zero components fails with `EmptyDesign`; but `generateSvgTemplate` is a
fixed placeholder that never inspects the components, so the export of the
freshly created design (which has zero components) succeeds with the
placeholder SVG. -/
theorem c8_empty_design_export_succeeds :
    baseDesign.components = [] ∧
    generateTemplate (some "svg") "alice" (some baseDesign) =
      TemplateResult.svgOut (svgTemplateFor "Untitled Design") :=
  ⟨rfl, rfl⟩

/-- C8, amended. Template export never fails with `EmptyDesign` (no such
check exists): for every readable design and every component list — empty or
not — the `svg` export succeeds and returns the fixed placeholder SVG, which
depends only on the design's name and renders no component outlines. -/
theorem c8_export_placeholder_ignores_components (uid : String) (d : IDesign)
    (comps : List IComponent) (h : d.createdBy = uid) :
    generateTemplate (some "svg") uid (some { d with components := comps }) =
      TemplateResult.svgOut (svgTemplateFor d.name) :=
  generateTemplate_svg_ok uid { d with components := comps } h

/-- Witness for the amended C8 theorem: the sample design with a component. -/
theorem c8_export_placeholder_ignores_components_witness :
    generateTemplate (some "svg") "alice"
        (some { baseDesign with components := [danglingComponent] }) =
      TemplateResult.svgOut (svgTemplateFor baseDesign.name) :=
  c8_export_placeholder_ignores_components "alice" baseDesign [danglingComponent] rfl

/-- An S3 environment where a client and bucket are configured but the
attempted upload is rejected by the network. -/
def s3FailEnv : S3Env := { configured := true, uploadResult := Except.error () }

/-- C9, code bug. The claim (matching the spec and the dead
`s3Url || tempFilePath` fallback in the source) says a blob-storage failure
is never fatal: the export call should still succeed with the local
temporary-file handle. In the code, `uploadFileToS3` rethrows the upload
failure and `generateAndSaveTemplate` rethrows it again as
`'Failed to generate and save template'`, so with S3 configured a failed
upload makes the whole persist-and-return-URL call fail instead of
returning the temp path. -/
theorem c9_upload_failure_is_fatal :
    generateAndSaveTemplate s3FailEnv "/tmp/template.svg" baseDesign =
      Except.error FileError.saveFailed ∧
    generateAndSaveTemplate s3FailEnv "/tmp/template.svg" baseDesign ≠
      Except.ok "/tmp/template.svg" :=
  ⟨rfl, fun hc => Except.noConfusion hc⟩

/-- C10. A `createDesign` call that supplies no sections (and no visibility
flag) produces exactly the three default sections — nosecone `[0, 0.2]`,
payload bay `[0.2, 0.5]`, main body `[0.5, 1]` — which tile the unit
interval with no gaps or overlaps; the created design has version 1, a
single history entry, and is private. -/
theorem c10_default_sections_tile_unit_interval (now : Nat) (uid : String)
    (ids : String × String × String) (data : DesignPatch)
    (hs : data.sections = none) (hp : data.isPublic = none) :
    (createDesign now uid ids data).sections = defaultSections ids ∧
    (createDesign now uid ids data).sections.map
        (fun s => (s.type, s.boundaries.start, s.boundaries.end_)) =
      [(SectionType.nosecone, (0 : ℚ), (0.2 : ℚ)),
       (SectionType.payload_bay, 0.2, 0.5),
       (SectionType.main_body, 0.5, 1.0)] ∧
    tilesUnit (createDesign now uid ids data).sections = true ∧
    (createDesign now uid ids data).version = 1 ∧
    (createDesign now uid ids data).history.length = 1 ∧
    (createDesign now uid ids data).isPublic = false := by
  have hsec : (createDesign now uid ids data).sections = defaultSections ids := by
    simp [createDesign, hs]
  have hpub : (createDesign now uid ids data).isPublic = false := by
    simp [createDesign, hp]
  refine ⟨hsec, ?_, ?_, rfl, rfl, hpub⟩
  · rw [hsec]
    rfl
  · rw [hsec]
    norm_num [tilesUnit, abutting, lastEnd, defaultSections]

/-- Witness for C10 at an entirely empty creation payload. -/
theorem c10_default_sections_tile_unit_interval_witness :
    (createDesign 0 "alice" sampleIds {}).sections = defaultSections sampleIds ∧
    (createDesign 0 "alice" sampleIds {}).sections.map
        (fun s => (s.type, s.boundaries.start, s.boundaries.end_)) =
      [(SectionType.nosecone, (0 : ℚ), (0.2 : ℚ)),
       (SectionType.payload_bay, 0.2, 0.5),
       (SectionType.main_body, 0.5, 1.0)] ∧
    tilesUnit (createDesign 0 "alice" sampleIds {}).sections = true ∧
    (createDesign 0 "alice" sampleIds {}).version = 1 ∧
    (createDesign 0 "alice" sampleIds {}).history.length = 1 ∧
    (createDesign 0 "alice" sampleIds {}).isPublic = false :=
  c10_default_sections_tile_unit_interval 0 "alice" sampleIds {} rfl rfl

end RubyRokit
